import Mathlib

/-!
# Verification of the PA-ACP voting apps (voter app and admin dashboard)

Shallow embedding of the client-side logic of `PA-ACP_voter_app.py` and
`streamlit_admin_dashboard.py`: the multi-region validate/resume resolver,
the voter session state (token / region / resume code / draft), the candidate
checkbox toggling, the save-draft and submit-vote button handlers, the admin
registry-upload column check, the two-stage CSV parser `read_table`, and the
candidate fetch.  Network calls are abstracted as response oracles; each
embedded function additionally reports which calls it issued, so that
"no further calls are made" properties are statable.
-/

set_option maxHeartbeats 1000000

/-- A JSON response body, restricted to the fields the apps read
(`ok`, `reason`, `error`, `region`, `token`, `draft`, `resume_code`).
An absent field is `none`; Python's `data.get(k)` returns `None` then. -/
structure RespBody where
  ok : Bool
  reason : Option String
  error : Option String
  region : Option String
  token : Option String := none
  draft : List Nat := []
  resume_code : Option String := none
deriving DecidableEq, Repr

/-- An HTTP response to a POST: `ok` is `r.ok` (2xx status), `body` is the
parsed JSON body, `none` when `r.text` is empty. -/
structure HttpResp where
  ok : Bool
  body : Option RespBody
deriving DecidableEq, Repr

/-- The body the apps substitute when `r.text` is empty: `{"ok": False}` in
the resolver, `{}` in the save/submit handlers.  Both behave identically
under the `data.get` accesses the code performs (every field falsy/absent). -/
def emptyBody : RespBody :=
  { ok := false, reason := none, error := none, region := none }

/-- `data = r.json() if r.text else {...}`. -/
def bodyOf (r : HttpResp) : RespBody :=
  r.body.getD emptyBody

/-- Python's `a or b` for an optional string `a`: `b` when `a` is `None` or
the empty string, else the string in `a`. -/
def pyOrStr (a : Option String) (b : String) : String :=
  match a with
  | some s => if s = "" then b else s
  | none => b

/-- Python's `not x` truthiness test on an optional string:
true iff `None` or `""`. -/
def pyFalsy : Option String → Bool
  | none => true
  | some s => s = ""

/-- Python's `str.lower()`: lower-case every character. -/
def pyLower (s : String) : String :=
  ⟨s.data.map Char.toLower⟩

/-- Python's `str.strip()`: drop leading and trailing whitespace. -/
def pyStrip (s : String) : String :=
  ⟨((s.data.dropWhile Char.isWhitespace).reverse.dropWhile Char.isWhitespace).reverse⟩

/-- `(data.get("reason") or data.get("error") or "").strip().lower()`
(lines 111 and 129 of the voter app). -/
def normReason (data : RespBody) : String :=
  pyLower (pyStrip (pyOrStr data.reason (pyOrStr data.error "")))

/-- `r.ok and data.get("ok")` — the success test of one region attempt
(line 109 / line 127). -/
def attempt_succeeds (respond : String → HttpResp) (reg : String) : Bool :=
  (respond reg).ok && (bodyOf (respond reg)).ok

/-- `if not best_reason: best_reason = reason or default` (lines 115-116 /
132-133). -/
def next_best (best_reason : Option String) (reason default_reason : String) :
    Option String :=
  if pyFalsy best_reason then
    some (if reason = "" then default_reason else reason)
  else best_reason

/-- Result of the cross-region resolver: `{'ok': True, 'data': .., 'region': ..}`
or `{'ok': False, 'reason': ..}`. -/
inductive ResolveResult where
  | ok (data : RespBody) (region : String)
  | fail (reason : String)
deriving DecidableEq, Repr

/-- The shared region loop of `validate_acp_any_region` (lines 105-117) and
`resume_any_region` (lines 123-134); the two differ only in the endpoint
(absorbed into the `respond` oracle) and the default failure reason.
Returns the resolver result together with the list of regions actually
called, in call order. -/
def any_region_loop (respond : String → HttpResp) (default_reason : String) :
    List String → Option String → ResolveResult × List String
  | [], best_reason => (.fail (pyOrStr best_reason default_reason), [])
  | reg :: rest, best_reason =>
    if attempt_succeeds respond reg then
      (.ok (bodyOf (respond reg)) ((bodyOf (respond reg)).region.getD reg), [reg])
    else if normReason (bodyOf (respond reg)) = "already_voted" then
      (.fail "already_voted", [reg])
    else
      let p := any_region_loop respond default_reason rest
        (next_best best_reason (normReason (bodyOf (respond reg))) default_reason)
      (p.1, reg :: p.2)

/-- `validate_acp_any_region(acp, regions)` (lines 99-117); the `acp` payload
is absorbed into the `respond` oracle. -/
def validate_acp_any_region (respond : String → HttpResp) (regions : List String) :
    ResolveResult × List String :=
  any_region_loop respond "validation_failed" regions none

/-- `resume_any_region(acp, resume_code, regions)` (lines 119-134). -/
def resume_any_region (respond : String → HttpResp) (regions : List String) :
    ResolveResult × List String :=
  any_region_loop respond "resume_failed" regions none

/-- `ALL_REGIONS` (line 137). -/
def ALL_REGIONS : List String := ["WEST", "SOUTHEAST", "EAST"]

/-- An attempt that fails with a normalized reason other than
`already_voted` (the case where the loop continues to the next region). -/
def attempt_fails_other (respond : String → HttpResp) (reg : String) : Prop :=
  attempt_succeeds respond reg = false ∧
    normReason (bodyOf (respond reg)) ≠ "already_voted"

instance (respond : String → HttpResp) (reg : String) :
    Decidable (attempt_fails_other respond reg) :=
  inferInstanceAs (Decidable (attempt_succeeds respond reg = false ∧
    normReason (bodyOf (respond reg)) ≠ "already_voted"))

/-- The failure reason the loop reports when every attempt fails without
`already_voted`: the first attempted region's normalized reason when
non-empty, else the default (specification-side characterisation, compared
against the loop in the theorems below). -/
def first_reason_or (respond : String → HttpResp) (regions : List String)
    (default_reason : String) : String :=
  match regions with
  | [] => default_reason
  | reg :: _ =>
    if normReason (bodyOf (respond reg)) = "" then default_reason
    else normReason (bodyOf (respond reg))

/-! ## Voter session state (lines 33-37) and its button handlers -/

/-- The client-held session: `ss.token`, `ss.region`, `ss.resume_code`,
`ss.draft_ids` with their `setdefault` initial values. -/
structure VoterSession where
  token : Option String
  region : Option String
  resume_code : String
  draft_ids : List Nat
deriving DecidableEq, Repr

/-- The `setdefault` defaults: token `None`, region `None`, resume code `""`,
draft `[]`. -/
def initSession : VoterSession :=
  { token := none, region := none, resume_code := "", draft_ids := [] }

/-- One checkbox update (lines 224-227): `chosen.add(id)` when the box is
checked, `chosen.discard(id)` when unchecked. -/
def checkbox_update (chosen : Finset Nat) (id : Nat) (new_val : Bool) :
    Finset Nat :=
  if new_val then insert id chosen else chosen.erase id

/-- Toggling candidate `id`: the checkbox flips from `id ∈ chosen` to its
negation and the update above runs.  The handler issues no API call; the
second component counts the calls it makes (`0`). -/
def toggle_candidate (chosen : Finset Nat) (id : Nat) : Finset Nat × Nat :=
  (checkbox_update chosen id (!(decide (id ∈ chosen))), 0)

/-- `if len(chosen_list) > 3: st.error(...)` (lines 230-231): the UI flags an
over-sized selection but does not shrink it. -/
def too_many_flag (chosen_list : List Nat) : Bool :=
  chosen_list.length > 3

/-- The "Save draft" handler (lines 235-242): one `save_draft` POST; on
`r.ok and data.get("ok")` the local draft becomes the submitted list, else
the session is untouched.  Returns (new session, success flag, calls). -/
def save_draft_click (s : VoterSession) (chosen_list : List Nat)
    (resp : HttpResp) : VoterSession × Bool × Nat :=
  if (resp.ok && (bodyOf resp).ok) then
    ({ s with draft_ids := chosen_list }, true, 1)
  else
    (s, false, 1)

/-- Outcome surfaced by the "Submit vote" handler. -/
inductive SubmitOutcome where
  | rejected_local
  | success
  | failure (msg : String)
deriving DecidableEq, Repr

/-- Result of one press of "Submit vote": the session afterwards, the
surfaced outcome, and how many `submit_vote` POSTs were issued. -/
structure SubmitResult where
  state : VoterSession
  outcome : SubmitOutcome
  calls : Nat
deriving DecidableEq, Repr

/-- `data.get("reason") or data.get("error") or "Could not submit your vote."`
(line 256). -/
def submit_fail_msg (data : RespBody) : String :=
  pyOrStr data.reason (pyOrStr data.error "Could not submit your vote.")

/-- The "Submit vote" handler (lines 244-256): reject locally unless exactly
3 ids are chosen; on a successful POST clear `token`, `draft_ids`, `region`;
on a failed POST leave the session untouched and surface the reason. -/
def submit_vote_click (s : VoterSession) (chosen_list : List Nat)
    (resp : HttpResp) : SubmitResult :=
  if chosen_list.length ≠ 3 then
    { state := s, outcome := .rejected_local, calls := 0 }
  else if (resp.ok && (bodyOf resp).ok) then
    { state := { s with token := none, draft_ids := [], region := none },
      outcome := .success, calls := 1 }
  else
    { state := s, outcome := .failure (submit_fail_msg (bodyOf resp)),
      calls := 1 }

/-! ## Candidate fetching and rendering (voter app lines 139-144, 207-209) -/

/-- A candidate as used by the claims (`id`, `name`; bio and Q&A are
display-only). -/
structure Candidate where
  id : Nat
  name : String
deriving DecidableEq, Repr

/-- An HTTP response to the `public_candidates` GET: `ok` is `r.ok`, `json`
the parsed candidate array. -/
structure GetResp where
  ok : Bool
  json : List Candidate
deriving DecidableEq, Repr

/-- `fetch_candidates(region)` (lines 140-144): empty list when the
response is not OK, else the body. -/
def fetch_candidates (resp : GetResp) : List Candidate :=
  if !resp.ok then [] else resp.json

/-- What step 2 of the voter page shows for a candidate list. -/
inductive CandidatesView where
  | no_candidates_notice
  | slate (cs : List Candidate)
deriving DecidableEq, Repr

/-- `if not candidates: st.warning("No candidates available...")` else render
the slate (lines 208-211). -/
def render_candidates (cs : List Candidate) : CandidatesView :=
  if cs = [] then .no_candidates_notice else .slate cs

/-! ## Admin dashboard: registry upload (streamlit_admin_dashboard.py) -/

/-- `required = {"RegionCode", "CustomerID"}` (line 144). -/
def required_cols : List String := ["RegionCode", "CustomerID"]

/-- `missing = [c for c in required if c not in df.columns]` (line 145). -/
def missing_cols (cols : List String) : List String :=
  required_cols.filter (fun c => decide (c ∉ cols))

/-- Result of the post-parse upload flow: was the file accepted past the
column check, and how many `admin_upsert_registry` POSTs were issued. -/
structure UploadOutcome where
  accepted : Bool
  upsert_calls : Nat
deriving DecidableEq, Repr

/-- The column gate of the upload tab (lines 144-162): on missing required
columns report the error and stop (no upsert path exists); otherwise the
upsert POST fires exactly when the "Upsert now" button is pressed. -/
def registry_column_check (cols : List String) (upsert_clicked : Bool) :
    UploadOutcome :=
  if missing_cols cols ≠ [] then
    { accepted := false, upsert_calls := 0 }
  else
    { accepted := true, upsert_calls := if upsert_clicked then 1 else 0 }

/-! ## Admin dashboard: `read_table` (lines 102-131) -/

/-- `on_bad_lines=("error" if strict else "skip")` (line 128). -/
inductive BadLinesPolicy where
  | error
  | skip
deriving DecidableEq, Repr

/-- Outcome of one pandas parse attempt: a dataframe or a raised error
message. -/
inductive ParseOutcome (DF : Type) where
  | ok (df : DF)
  | raised (msg : String)
deriving DecidableEq, Repr

/-- The parse stages `read_table` can run, in order. -/
inductive Stage where
  | excel
  | fast
  | lenient (policy : BadLinesPolicy)
deriving DecidableEq, Repr

/-- `read_table(uploaded_file)` (lines 102-131), with the three pandas
parsers abstracted as oracles on the already-read raw bytes: the Excel path
for `.xlsx` names; otherwise the fast C-engine parse, and only if it raises,
the lenient python-engine parse whose bad-row policy is `error` when strict
else `skip`; if both raise, a `RuntimeError` carrying both messages.
Returns the result and the list of stages run, in order. -/
def read_table {DF : Type} (is_xlsx : Bool) (excel_parse : ParseOutcome DF)
    (fast_parse : ParseOutcome DF)
    (lenient_parse : BadLinesPolicy → ParseOutcome DF) (strict : Bool) :
    Except String DF × List Stage :=
  if is_xlsx then
    match excel_parse with
    | .ok df => (.ok df, [.excel])
    | .raised e => (.error e, [.excel])
  else
    match fast_parse with
    | .ok df => (.ok df, [.fast])
    | .raised e1 =>
      match lenient_parse (if strict then .error else .skip) with
      | .ok df => (.ok df, [.fast, .lenient (if strict then .error else .skip)])
      | .raised e2 =>
        (.error ("CSV parse failed.\nFast parser: " ++ e1 ++
          "\nLenient parser: " ++ e2),
         [.fast, .lenient (if strict then .error else .skip)])

/-! ## Concrete response fixtures for witnesses and counterexamples -/

/-- A failing response whose body carries no reason at all (normalizes
to `""`). -/
def respNoReason : HttpResp :=
  { ok := false,
    body := some { ok := false, reason := none, error := none, region := none } }

/-- A failing response with reason `not_eligible`. -/
def respNotEligible : HttpResp :=
  { ok := false,
    body := some { ok := false, reason := some "not_eligible", error := none,
                   region := none } }

/-- A failing response with reason `already_voted`. -/
def respAlreadyVoted : HttpResp :=
  { ok := false,
    body := some { ok := false, reason := some "already_voted", error := none,
                   region := none } }

/-- A successful response: HTTP ok, body ok true, server-reported region
EAST, a token and a saved draft. -/
def respSuccessEast : HttpResp :=
  { ok := true,
    body := some { ok := true, reason := none, error := none,
                   region := some "EAST", token := some "tok-1",
                   draft := [7, 9] } }

/-- A successful response whose body reports no region. -/
def respSuccessNoRegion : HttpResp :=
  { ok := true,
    body := some { ok := true, reason := none, error := none, region := none,
                   token := some "tok-2" } }

/-- Oracle for the C3 counterexample: WEST fails with an empty reason,
every other region fails with `not_eligible`. -/
def c3Respond : String → HttpResp := fun reg =>
  if reg = "WEST" then respNoReason else respNotEligible

/-- Oracle where WEST fails with `not_eligible`, SOUTHEAST succeeds
(region-less body), EAST would also succeed. -/
def c1Respond : String → HttpResp := fun reg =>
  if reg = "WEST" then respNotEligible
  else if reg = "SOUTHEAST" then respSuccessNoRegion
  else respSuccessEast

/-- Oracle where WEST fails with `not_eligible`, SOUTHEAST reports
`already_voted`, and EAST would have succeeded. -/
def c2Respond : String → HttpResp := fun reg =>
  if reg = "WEST" then respNotEligible
  else if reg = "SOUTHEAST" then respAlreadyVoted
  else respSuccessEast

/-- Oracle that fails with `not_eligible` everywhere. -/
def allFailRespond : String → HttpResp := fun _ => respNotEligible

/-- A concrete authenticated session used in witnesses. -/
def sessionA : VoterSession :=
  { token := some "tok-1", region := some "EAST", resume_code := "AB12CD",
    draft_ids := [7, 9, 3] }

/-- A lenient-parse oracle that succeeds under any bad-row policy. -/
def lenOkParse : BadLinesPolicy → ParseOutcome Nat :=
  fun _ => ParseOutcome.ok 2

/-- A lenient-parse oracle that raises under any bad-row policy. -/
def lenRaiseParse : BadLinesPolicy → ParseOutcome Nat :=
  fun _ => ParseOutcome.raised "bad lines"

/-- A failed candidates GET whose body nevertheless holds a candidate. -/
def failedCandidatesResp : GetResp :=
  { ok := false, json := [{ id := 1, name := "Alice" }] }

/-! ## Resolver step lemmas -/

theorem any_region_loop_succ (respond : String → HttpResp) (d reg : String)
    (rest : List String) (best : Option String)
    (h : attempt_succeeds respond reg = true) :
    any_region_loop respond d (reg :: rest) best =
      (.ok (bodyOf (respond reg)) ((bodyOf (respond reg)).region.getD reg),
       [reg]) := by
  simp [any_region_loop, h]

theorem any_region_loop_av (respond : String → HttpResp) (d reg : String)
    (rest : List String) (best : Option String)
    (h1 : attempt_succeeds respond reg = false)
    (h2 : normReason (bodyOf (respond reg)) = "already_voted") :
    any_region_loop respond d (reg :: rest) best =
      (.fail "already_voted", [reg]) := by
  simp [any_region_loop, h1, h2]

theorem any_region_loop_fail (respond : String → HttpResp) (d reg : String)
    (rest : List String) (best : Option String)
    (h1 : attempt_succeeds respond reg = false)
    (h2 : normReason (bodyOf (respond reg)) ≠ "already_voted") :
    any_region_loop respond d (reg :: rest) best =
      ((any_region_loop respond d rest
          (next_best best (normReason (bodyOf (respond reg))) d)).1,
       reg :: (any_region_loop respond d rest
          (next_best best (normReason (bodyOf (respond reg))) d)).2) := by
  simp [any_region_loop, h1, h2]

theorem loop_skip_to_success (respond : String → HttpResp) (d k : String)
    (post : List String) (hk : attempt_succeeds respond k = true) :
    ∀ (pre : List String) (best : Option String),
      (∀ reg ∈ pre, attempt_fails_other respond reg) →
      any_region_loop respond d (pre ++ k :: post) best =
        (.ok (bodyOf (respond k)) ((bodyOf (respond k)).region.getD k),
         pre ++ [k]) := by
  intro pre
  induction pre with
  | nil =>
    intro best _
    simpa using any_region_loop_succ respond d k post best hk
  | cons reg pre ih =>
    intro best hpre
    have hr := hpre reg (by simp)
    rw [List.cons_append,
      any_region_loop_fail respond d reg (pre ++ k :: post) best hr.1 hr.2,
      ih _ (fun r hrm => hpre r (by simp [hrm]))]
    rfl

theorem loop_skip_to_av (respond : String → HttpResp) (d k : String)
    (post : List String) (hk1 : attempt_succeeds respond k = false)
    (hk2 : normReason (bodyOf (respond k)) = "already_voted") :
    ∀ (pre : List String) (best : Option String),
      (∀ reg ∈ pre, attempt_fails_other respond reg) →
      any_region_loop respond d (pre ++ k :: post) best =
        (.fail "already_voted", pre ++ [k]) := by
  intro pre
  induction pre with
  | nil =>
    intro best _
    simpa using any_region_loop_av respond d k post best hk1 hk2
  | cons reg pre ih =>
    intro best hpre
    have hr := hpre reg (by simp)
    rw [List.cons_append,
      any_region_loop_fail respond d reg (pre ++ k :: post) best hr.1 hr.2,
      ih _ (fun r hrm => hpre r (by simp [hrm]))]
    rfl

theorem loop_all_fail_keep (respond : String → HttpResp) (d : String) :
    ∀ (l : List String) (b : String), b ≠ "" →
      (∀ reg ∈ l, attempt_fails_other respond reg) →
      (any_region_loop respond d l (some b)).1 = .fail b := by
  intro l
  induction l with
  | nil =>
    intro b hb _
    simp [any_region_loop, pyOrStr, hb]
  | cons reg rest ih =>
    intro b hb hall
    have hr := hall reg (by simp)
    rw [any_region_loop_fail respond d reg rest (some b) hr.1 hr.2]
    have hkeep : next_best (some b) (normReason (bodyOf (respond reg))) d =
        some b := by
      simp [next_best, pyFalsy, hb]
    rw [hkeep]
    exact ih b hb (fun r hrm => hall r (by simp [hrm]))

theorem loop_all_fail (respond : String → HttpResp) (d : String) (hd : d ≠ "")
    (regions : List String)
    (hall : ∀ reg ∈ regions, attempt_fails_other respond reg) :
    (any_region_loop respond d regions none).1 =
      .fail (first_reason_or respond regions d) := by
  cases regions with
  | nil => simp [any_region_loop, pyOrStr, first_reason_or]
  | cons reg rest =>
    have hr := hall reg (by simp)
    rw [any_region_loop_fail respond d reg rest none hr.1 hr.2]
    have hnb : next_best none (normReason (bodyOf (respond reg))) d =
        some (if normReason (bodyOf (respond reg)) = "" then d
          else normReason (bodyOf (respond reg))) := by
      simp [next_best, pyFalsy]
    have hb : (if normReason (bodyOf (respond reg)) = "" then d
        else normReason (bodyOf (respond reg))) ≠ "" := by
      by_cases hcase : normReason (bodyOf (respond reg)) = ""
      · simpa [hcase] using hd
      · simp [hcase]
    rw [hnb, loop_all_fail_keep respond d rest _ hb
      (fun r hrm => hall r (by simp [hrm]))]
    simp [first_reason_or]

/-! ## Claims about the region resolver -/

/-- C1: if region `k` gives a success response (HTTP ok and body `ok` true)
while every earlier region failed with a reason other than `already_voted`,
both `validate_acp_any_region` and `resume_any_region` return success with
the full response body and the resolved region (the server-reported region
when present, else `k`), and the call sequence stops at `k` — no region
after `k` is called. -/
theorem c1_first_success_wins (respond : String → HttpResp)
    (pre post : List String) (k : String)
    (hpre : ∀ reg ∈ pre, attempt_fails_other respond reg)
    (hk : attempt_succeeds respond k = true) :
    validate_acp_any_region respond (pre ++ k :: post) =
      (.ok (bodyOf (respond k)) ((bodyOf (respond k)).region.getD k),
       pre ++ [k]) ∧
    resume_any_region respond (pre ++ k :: post) =
      (.ok (bodyOf (respond k)) ((bodyOf (respond k)).region.getD k),
       pre ++ [k]) :=
  ⟨loop_skip_to_success respond "validation_failed" k post hk pre none hpre,
   loop_skip_to_success respond "resume_failed" k post hk pre none hpre⟩

/-- Witness for C1 at a concrete oracle: WEST fails `not_eligible`,
SOUTHEAST succeeds with a body that reports no region (so the attempted
region is used), EAST is never called. -/
theorem c1_witness :
    (∀ reg ∈ ["WEST"], attempt_fails_other c1Respond reg) ∧
    attempt_succeeds c1Respond "SOUTHEAST" = true ∧
    validate_acp_any_region c1Respond (["WEST"] ++ "SOUTHEAST" :: ["EAST"]) =
      (.ok (bodyOf (c1Respond "SOUTHEAST"))
        ((bodyOf (c1Respond "SOUTHEAST")).region.getD "SOUTHEAST"),
       ["WEST"] ++ ["SOUTHEAST"]) :=
  ⟨by decide, by decide,
   (c1_first_success_wins c1Respond ["WEST"] ["EAST"] "SOUTHEAST"
     (by decide) (by decide)).1⟩

/-- C2: if an attempted region `k` (every earlier region having failed with
another reason) fails with normalized reason `already_voted`, both resolvers
return failure `already_voted` immediately — no later region is called, even
one that would have succeeded. -/
theorem c2_already_voted_short_circuits (respond : String → HttpResp)
    (pre post : List String) (k : String)
    (hpre : ∀ reg ∈ pre, attempt_fails_other respond reg)
    (hk1 : attempt_succeeds respond k = false)
    (hk2 : normReason (bodyOf (respond k)) = "already_voted") :
    validate_acp_any_region respond (pre ++ k :: post) =
      (.fail "already_voted", pre ++ [k]) ∧
    resume_any_region respond (pre ++ k :: post) =
      (.fail "already_voted", pre ++ [k]) :=
  ⟨loop_skip_to_av respond "validation_failed" k post hk1 hk2 pre none hpre,
   loop_skip_to_av respond "resume_failed" k post hk1 hk2 pre none hpre⟩

/-- Witness for C2 at a concrete oracle where EAST, never reached, would
have succeeded. -/
theorem c2_witness :
    (∀ reg ∈ ["WEST"], attempt_fails_other c2Respond reg) ∧
    attempt_succeeds c2Respond "SOUTHEAST" = false ∧
    normReason (bodyOf (c2Respond "SOUTHEAST")) = "already_voted" ∧
    attempt_succeeds c2Respond "EAST" = true ∧
    resume_any_region c2Respond (["WEST"] ++ "SOUTHEAST" :: ["EAST"]) =
      (.fail "already_voted", ["WEST"] ++ ["SOUTHEAST"]) :=
  ⟨by decide, by decide, by decide, by decide,
   (c2_already_voted_short_circuits c2Respond ["WEST"] ["EAST"] "SOUTHEAST"
     (by decide) (by decide) (by decide)).2⟩

/-- C3 counterexample: the first attempted region (WEST) fails with an empty
normalized reason, the second with `not_eligible` — the first NON-empty
normalized reason seen across the attempts is `not_eligible`, yet the code
returns the generic `validation_failed`, locked in by the first attempt. -/
theorem c3_counterexample :
    attempt_fails_other c3Respond "WEST" ∧
    normReason (bodyOf (c3Respond "WEST")) = "" ∧
    attempt_fails_other c3Respond "SOUTHEAST" ∧
    normReason (bodyOf (c3Respond "SOUTHEAST")) = "not_eligible" ∧
    (validate_acp_any_region c3Respond ["WEST", "SOUTHEAST"]).1 =
      .fail "validation_failed" ∧
    (validate_acp_any_region c3Respond ["WEST", "SOUTHEAST"]).1 ≠
      .fail "not_eligible" := by
  decide

/-- C3 (amended): when no region succeeds and none reports `already_voted`,
the resolver returns failure with the FIRST ATTEMPTED region's normalized
reason when that is non-empty, else the generic default
(`validation_failed` / `resume_failed`); the remembered reason is fixed by
the first attempt and later attempts never overwrite it. -/
theorem c3_first_attempt_reason (respond : String → HttpResp)
    (regions : List String)
    (hall : ∀ reg ∈ regions, attempt_fails_other respond reg) :
    (validate_acp_any_region respond regions).1 =
      .fail (first_reason_or respond regions "validation_failed") ∧
    (resume_any_region respond regions).1 =
      .fail (first_reason_or respond regions "resume_failed") :=
  ⟨loop_all_fail respond "validation_failed" (by decide) regions hall,
   loop_all_fail respond "resume_failed" (by decide) regions hall⟩

/-- Witness for the amended C3: `not_eligible` everywhere yields
`not_eligible` from both resolvers. -/
theorem c3_witness :
    (∀ reg ∈ ALL_REGIONS, attempt_fails_other allFailRespond reg) ∧
    (validate_acp_any_region allFailRespond ALL_REGIONS).1 =
      .fail "not_eligible" ∧
    (resume_any_region allFailRespond ALL_REGIONS).1 =
      .fail "not_eligible" := by
  refine ⟨by decide, ?_, ?_⟩
  · have h := (c3_first_attempt_reason allFailRespond ALL_REGIONS (by decide)).1
    have e : first_reason_or allFailRespond ALL_REGIONS "validation_failed" =
        "not_eligible" := by decide
    rw [e] at h
    exact h
  · have h := (c3_first_attempt_reason allFailRespond ALL_REGIONS (by decide)).2
    have e : first_reason_or allFailRespond ALL_REGIONS "resume_failed" =
        "not_eligible" := by decide
    rw [e] at h
    exact h

/-! ## Claims about the voter session state machine -/

/-- C4: a submit with a selection of size other than 3 is rejected locally —
no network call, session unchanged; a submit whose POST fails (HTTP error or
body `ok` not true) leaves the session (token, region, draft) unchanged and
surfaces a message that prefers the body's `reason` over its `error`. -/
theorem c4_submit_failure_preserves_session (s : VoterSession)
    (chosen_list : List Nat) (resp : HttpResp) (rs : String)
    (e : Option String) :
    (chosen_list.length ≠ 3 →
      submit_vote_click s chosen_list resp =
        { state := s, outcome := .rejected_local, calls := 0 }) ∧
    (chosen_list.length = 3 → (resp.ok && (bodyOf resp).ok) = false →
      (submit_vote_click s chosen_list resp).state = s ∧
      (submit_vote_click s chosen_list resp).outcome =
        .failure (submit_fail_msg (bodyOf resp)) ∧
      (submit_vote_click s chosen_list resp).calls = 1) ∧
    (rs ≠ "" →
      submit_fail_msg
        { ok := false, reason := some rs, error := e, region := none } = rs) := by
  refine ⟨?_, ?_, ?_⟩
  · intro h
    simp [submit_vote_click, h]
  · intro h3 hfail
    simp [submit_vote_click, h3, hfail]
  · intro hrs
    simp [submit_fail_msg, pyOrStr, hrs]

/-- Witness for C4: a 2-element selection is rejected without a call; a
3-element selection with a `not_eligible` failure response leaves the
session intact; `reason` beats `error` in the surfaced message. -/
theorem c4_witness :
    ([7, 9] : List Nat).length ≠ 3 ∧
    submit_vote_click sessionA [7, 9] respSuccessEast =
      { state := sessionA, outcome := .rejected_local, calls := 0 } ∧
    (respNotEligible.ok && (bodyOf respNotEligible).ok) = false ∧
    (submit_vote_click sessionA [7, 9, 3] respNotEligible).state = sessionA ∧
    submit_fail_msg
      { ok := false, reason := some "not_eligible", error := some "boom",
        region := none } = "not_eligible" := by
  have h := c4_submit_failure_preserves_session sessionA [7, 9]
    respSuccessEast "not_eligible" (some "boom")
  have h2 := c4_submit_failure_preserves_session sessionA [7, 9, 3]
    respNotEligible "not_eligible" (some "boom")
  exact ⟨by decide, h.1 (by decide), by decide,
    (h2.2.1 (by decide) (by decide)).1, h.2.2 (by decide)⟩

/-- C5: a successful submit (HTTP ok, body `ok` true) reports success and
resets `token`, `draft_ids` and `region` to their initial unauthenticated
values; and from a token-less session neither a submit nor a save-draft can
ever set a token again — only a fresh validation or resume can. -/
theorem c5_successful_submit_resets_session (s : VoterSession)
    (chosen_list : List Nat) (resp : HttpResp)
    (h3 : chosen_list.length = 3)
    (hok : (resp.ok && (bodyOf resp).ok) = true) :
    (submit_vote_click s chosen_list resp).outcome = .success ∧
    (submit_vote_click s chosen_list resp).state.token = initSession.token ∧
    (submit_vote_click s chosen_list resp).state.draft_ids =
      initSession.draft_ids ∧
    (submit_vote_click s chosen_list resp).state.region = initSession.region ∧
    (∀ (s2 : VoterSession) (cl : List Nat) (r2 : HttpResp), s2.token = none →
      (submit_vote_click s2 cl r2).state.token = none ∧
      (save_draft_click s2 cl r2).1.token = none) := by
  refine ⟨?_, ?_, ?_, ?_, ?_⟩
  · simp [submit_vote_click, h3, hok]
  · simp [submit_vote_click, h3, hok, initSession]
  · simp [submit_vote_click, h3, hok, initSession]
  · simp [submit_vote_click, h3, hok, initSession]
  · intro s2 cl r2 ht
    constructor
    · unfold submit_vote_click
      split
      · simpa using ht
      · split
        · rfl
        · simpa using ht
    · unfold save_draft_click
      split
      · simpa using ht
      · simpa using ht

/-- Witness for C5 at a concrete session and successful response. -/
theorem c5_witness :
    ([7, 9, 3] : List Nat).length = 3 ∧
    (respSuccessEast.ok && (bodyOf respSuccessEast).ok) = true ∧
    (submit_vote_click sessionA [7, 9, 3] respSuccessEast).outcome =
      .success ∧
    (submit_vote_click sessionA [7, 9, 3] respSuccessEast).state.token =
      none ∧
    (submit_vote_click sessionA [7, 9, 3] respSuccessEast).state.draft_ids =
      [] ∧
    (submit_vote_click sessionA [7, 9, 3] respSuccessEast).state.region =
      none := by
  have h := c5_successful_submit_resets_session sessionA [7, 9, 3]
    respSuccessEast (by decide) (by decide)
  exact ⟨by decide, by decide, h.1, h.2.1, h.2.2.1, h.2.2.2.1⟩

/-- C6 counterexample: from a draft of size 3 (within the claimed bound),
toggling a 4th candidate yields a selection of size 4, and a successful
Save draft writes a 4-element draft into the session — the writers do not
preserve size ≤ 3. -/
theorem c6_counterexample :
    ({1, 2, 3} : Finset Nat).card ≤ 3 ∧
    ((toggle_candidate {1, 2, 3} 4).1).card = 4 ∧
    (save_draft_click sessionA [1, 2, 3, 4] respSuccessEast).1.draft_ids.length
      = 4 := by
  decide

/-- C6 (amended): the UI does not bound the draft size; instead a selection
of more than 3 is flagged as an error (`too_many_flag`), and the submit
handler issues its network call only when exactly 3 are chosen. -/
theorem c6_flag_and_submit_gate (s : VoterSession) (chosen_list : List Nat)
    (resp : HttpResp) :
    (too_many_flag chosen_list = true ↔ 3 < chosen_list.length) ∧
    ((submit_vote_click s chosen_list resp).calls ≠ 0 →
      chosen_list.length = 3) := by
  constructor
  · simp [too_many_flag]
  · intro hc
    by_contra hne
    simp [submit_vote_click, hne] at hc

/-- Witness for the amended C6. -/
theorem c6_witness :
    (submit_vote_click sessionA [7, 9, 3] respSuccessEast).calls ≠ 0 ∧
    ([7, 9, 3] : List Nat).length = 3 ∧
    too_many_flag [1, 2, 3, 4] = true :=
  ⟨by decide,
   (c6_flag_and_submit_gate sessionA [7, 9, 3] respSuccessEast).2 (by decide),
   (c6_flag_and_submit_gate sessionA [1, 2, 3, 4] respSuccessEast).1.mpr
     (by decide)⟩

/-- C7: toggling the same candidate id twice returns the selection to
exactly its prior contents, and neither toggle issues any server call. -/
theorem c7_double_toggle_identity (chosen : Finset Nat) (id : Nat) :
    (toggle_candidate (toggle_candidate chosen id).1 id).1 = chosen ∧
    (toggle_candidate chosen id).2 = 0 ∧
    (toggle_candidate (toggle_candidate chosen id).1 id).2 = 0 := by
  refine ⟨?_, rfl, rfl⟩
  by_cases h : id ∈ chosen
  · have h2 : id ∉ chosen.erase id := Finset.not_mem_erase id chosen
    simp [toggle_candidate, checkbox_update, h, h2, Finset.insert_erase h]
  · have h2 : id ∈ insert id chosen := Finset.mem_insert_self id chosen
    simp [toggle_candidate, checkbox_update, h, h2, Finset.erase_insert h]

/-! ## Claims about the admin dashboard -/

/-- C8: a parsed registry table lacking the `RegionCode` or the `CustomerID`
column is rejected locally — not accepted, and zero upsert calls whatever
the button state. -/
theorem c8_missing_columns_rejected (cols : List String) (clicked : Bool)
    (h : "RegionCode" ∉ cols ∨ "CustomerID" ∉ cols) :
    registry_column_check cols clicked =
      { accepted := false, upsert_calls := 0 } := by
  have hm : missing_cols cols ≠ [] := by
    rcases h with h | h
    · simp [missing_cols, required_cols, h]
    · simp [missing_cols, required_cols, h]
  simp [registry_column_check, hm]

/-- Witness for C8: a table with only `CustomerID` and `Email` is rejected
with zero upsert calls even with the button pressed. -/
theorem c8_witness :
    ("RegionCode" ∉ (["CustomerID", "Email"] : List String) ∨
      "CustomerID" ∉ (["CustomerID", "Email"] : List String)) ∧
    registry_column_check ["CustomerID", "Email"] true =
      { accepted := false, upsert_calls := 0 } :=
  ⟨Or.inl (by decide),
   c8_missing_columns_rejected ["CustomerID", "Email"] true
     (Or.inl (by decide))⟩

/-- C9: on the CSV path the fast parse runs first and, when it succeeds, is
the only stage run — no lenient re-parse; exactly when it raises, the
lenient stage runs once with bad-row policy `error` when strict and `skip`
otherwise; a lenient success is returned, and when both raise the failure
diagnostic carries both error messages. -/
theorem c9_read_table_two_stage {DF : Type} (df : DF) (e1 e2 : String)
    (fast : ParseOutcome DF) (lenient : BadLinesPolicy → ParseOutcome DF)
    (excel : ParseOutcome DF) (strict : Bool) :
    (fast = .ok df →
      read_table false excel fast lenient strict = (.ok df, [.fast])) ∧
    (fast = .raised e1 →
      (read_table false excel fast lenient strict).2 =
        [.fast, .lenient (if strict then .error else .skip)]) ∧
    (fast = .raised e1 →
      lenient (if strict then .error else .skip) = .ok df →
      (read_table false excel fast lenient strict).1 = .ok df) ∧
    (fast = .raised e1 →
      lenient (if strict then .error else .skip) = .raised e2 →
      (read_table false excel fast lenient strict).1 =
        .error ("CSV parse failed.\nFast parser: " ++ e1 ++
          "\nLenient parser: " ++ e2)) := by
  refine ⟨?_, ?_, ?_, ?_⟩
  · intro h
    simp [read_table, h]
  · intro h
    rcases hl : lenient (if strict then .error else .skip) with df2 | msg <;>
      simp [read_table, h, hl]
  · intro h hl
    simp [read_table, h, hl]
  · intro h hl
    simp [read_table, h, hl]

/-- Witness for C9: a fast success is returned with only the fast stage run;
with the fast parse raising, strict mode runs the lenient stage with the
`error` policy and reports both messages, non-strict mode runs it with
`skip`. -/
theorem c9_witness :
    read_table false (ParseOutcome.raised "no excel") (ParseOutcome.ok 1)
      lenRaiseParse true = (.ok 1, [.fast]) ∧
    (read_table false (ParseOutcome.raised "no excel")
      (ParseOutcome.raised "e1") lenRaiseParse true).1 =
      .error ("CSV parse failed.\nFast parser: " ++ "e1" ++
        "\nLenient parser: " ++ "bad lines") ∧
    (read_table false (ParseOutcome.raised "no excel")
      (ParseOutcome.raised "e1") lenOkParse false).2 =
      [.fast, .lenient .skip] := by
  have h1 := @c9_read_table_two_stage Nat 1 "e1" "bad lines"
    (ParseOutcome.ok 1) lenRaiseParse (ParseOutcome.raised "no excel") true
  have h2 := @c9_read_table_two_stage Nat 1 "e1" "bad lines"
    (ParseOutcome.raised "e1") lenRaiseParse (ParseOutcome.raised "no excel")
    true
  have h3 := @c9_read_table_two_stage Nat 2 "e1" "bad lines"
    (ParseOutcome.raised "e1") lenOkParse (ParseOutcome.raised "no excel")
    false
  refine ⟨h1.1 rfl, ?_, ?_⟩
  · simpa using h2.2.2.2 rfl rfl
  · simpa using h3.2.1 rfl

/-- C10: when the `public_candidates` GET is not OK, `fetch_candidates`
returns the empty list (no error is raised or surfaced), and the page then
renders exactly the no-candidates notice — the same view as for a region
whose slate is genuinely empty. -/
theorem c10_failed_fetch_looks_empty (resp : GetResp)
    (hfail : resp.ok = false) :
    fetch_candidates resp = [] ∧
    render_candidates (fetch_candidates resp) = .no_candidates_notice ∧
    render_candidates (fetch_candidates { ok := true, json := [] }) =
      .no_candidates_notice := by
  have h : fetch_candidates resp = [] := by simp [fetch_candidates, hfail]
  exact ⟨h, by simp [h, render_candidates],
    by simp [fetch_candidates, render_candidates]⟩

/-- Witness for C10: a failed GET carrying a candidate in its body still
yields the empty list and the no-candidates notice. -/
theorem c10_witness :
    failedCandidatesResp.ok = false ∧
    fetch_candidates failedCandidatesResp = [] ∧
    render_candidates (fetch_candidates failedCandidatesResp) =
      .no_candidates_notice :=
  ⟨rfl, (c10_failed_fetch_looks_empty failedCandidatesResp rfl).1,
   (c10_failed_fetch_looks_empty failedCandidatesResp rfl).2.1⟩
